import Mathlib

/-!
Shallow embedding of the punishment-worker core of the Oni Coach repository
(`backend/worker/ignore_mode.py`, `backend/worker/no_mode.py`,
`backend/worker/worker.py`) together with the slice of the data model from
`backend/models/__init__.py` that those modules read and write.

Conventions of the embedding:
* timestamps are integers (epoch seconds); Python's
  `int((now - run_at).total_seconds())` is exact on whole seconds;
* Python's floor division `//` is `Int.fdiv` (floor division for every sign,
  identical to Python's `//`);
* UUID primary keys are abstracted to `Nat` identifiers (only equality of ids
  is ever used by the embedded code);
* the SQLAlchemy session is passed around explicitly as a `Store` value;
  `session.add` appends to the corresponding table list, `.first()` existence
  checks become bounded existentials over the list;
* fallible code (Python exceptions observable by the caller) returns `Except`.
-/

namespace Oni

/-- `ScheduleState` from backend/models/__init__.py. -/
inductive ScheduleState where
  | PENDING
  | PROCESSING
  | DONE
  | SKIPPED
  | FAILED
  | CANCELED
deriving DecidableEq, Repr

/-- `EventType` from backend/models/__init__.py. -/
inductive EventType where
  | PLAN
  | REMIND
deriving DecidableEq, Repr

/-- `ActionResult` from backend/models/__init__.py. -/
inductive ActionResult where
  | YES
  | NO
  | AUTO_IGNORE
deriving DecidableEq, Repr

/-- `PunishmentMode` from backend/models/__init__.py. -/
inductive PunishmentMode where
  | IGNORE
  | NO
  | ZAP
  | VIBE
deriving DecidableEq, Repr

/-- A row of the `schedules` table.  The columns not read by the worker
(`thread_ts`, `comment`, `yes_comment`, `no_comment`) are omitted. -/
structure Schedule where
  id : Nat
  user_id : Nat
  event_type : EventType
  run_at : Int
  state : ScheduleState
  retry_count : Nat
  updated_at : Int
deriving DecidableEq, Repr

/-- A row of the `punishments` table (`schedule_id`, `mode`, `count`,
`created_at`); `count` is the trigger index. -/
structure Punishment where
  schedule_id : Nat
  mode : PunishmentMode
  count : Int
  created_at : Int
deriving DecidableEq, Repr

/-- A row of the `action_logs` table; its `created_at` column is never read
by the worker and is omitted. -/
structure ActionLog where
  schedule_id : Nat
  result : ActionResult
deriving DecidableEq, Repr

/-- A row of the `commitments` table; only the columns read by
`PunishmentWorker._resolve_bootstrap_user_id` are kept. -/
structure Commitment where
  user_id : Nat
  active : Bool
  updated_at : Int
deriving DecidableEq, Repr

/-- The database state seen through the SQLAlchemy session. -/
structure Store where
  schedules : List Schedule
  punishments : List Punishment
  actionLogs : List ActionLog
  commitments : List Commitment
deriving DecidableEq, Repr

/-- Effective configuration values as resolved by
`backend.worker.config_cache.get_config` at the call sites in the worker.
`IGNORE_INTERVAL`, `IGNORE_MAX_RETRY` and `LIMIT_DAY_PAVLOK_COUNTS` are fed
through `_safe_int`, so they are modelled as `Option Int` — `some v` when the
configured value is present and convertible by Python's `int`, `none`
otherwise.  `TIMEOUT_REMIND` and `RETRY_DELAY` are used raw by
`detect_no_mode` / `process_schedule`, so they carry the already-resolved
value (configured value, else the call-site default 600 resp. 5).
`SYSTEM_PAUSED` is the operator kill-switch flag that the repository's tests
expect `run_once` to consult. -/
structure Config where
  IGNORE_INTERVAL : Option Int
  IGNORE_MAX_RETRY : Option Int
  LIMIT_DAY_PAVLOK_COUNTS : Option Int
  TIMEOUT_REMIND : Int
  RETRY_DELAY : Int
  SYSTEM_PAUSED : Bool

/-- Ambient call context: `now` is `datetime.now()` in epoch seconds;
`day_start`/`day_end` are the midnight and 23:59:59.999999 bounds of the
current day computed in `_count_today_zap_executions` (and the start of day
used by `ensure_initial_plan_schedule`); `fresh_id` is the primary key the
database assigns to a newly inserted schedule row; `send` is the observable
behaviour of `_send_punishment` (ignore_mode.py lines 34-44): it returns
`true` exactly when the Pavlok call raised no exception and answered a dict
with a truthy `"success"` field. -/
structure Env where
  now : Int
  day_start : Int
  day_end : Int
  fresh_id : Nat
  cfg : Config
  send : String → Int → Bool

/-- `_safe_int` from ignore_mode.py lines 8-13: convert a config-like value
to `int` with a fallback.  Under the `Option Int` encoding of "present and
convertible", this is `Option.getD`. -/
def _safe_int (value : Option Int) (default : Int) : Int :=
  value.getD default

/-- Resolution of `IGNORE_INTERVAL` in `detect_ignore_mode`
(ignore_mode.py lines 120-122): `_safe_int(get_config("IGNORE_INTERVAL",
900), 900)`, then a non-positive value falls back to 900. -/
def effectiveIgnoreInterval (cfg : Config) : Int :=
  let v := _safe_int cfg.IGNORE_INTERVAL 900
  if v ≤ 0 then 900 else v

/-- Resolution of `IGNORE_MAX_RETRY` in `detect_ignore_mode`
(ignore_mode.py lines 141-143): default 5, non-positive values fall back
to 1. -/
def effectiveIgnoreMaxRetry (cfg : Config) : Int :=
  let v := _safe_int cfg.IGNORE_MAX_RETRY 5
  if v ≤ 0 then 1 else v

/-- Resolution of `LIMIT_DAY_PAVLOK_COUNTS` in `detect_ignore_mode`
(ignore_mode.py lines 155-157): default 100, non-positive values fall back
to 1. -/
def effectiveZapLimit (cfg : Config) : Int :=
  let v := _safe_int cfg.LIMIT_DAY_PAVLOK_COUNTS 100
  if v ≤ 0 then 1 else v

/-- `calculate_ignore_punishment` from ignore_mode.py lines 16-31: the pair
is the dict `{"type": ..., "value": ...}`. -/
def calculate_ignore_punishment (ignore_time : Int) : String × Int :=
  if ignore_time ≤ 1 then ("vibe", 100)
  else ("zap", min (35 + 10 * (ignore_time - 2)) 100)

/-- Python list subscription `xs[i]` with its negative-index wrap-around;
`none` models an `IndexError`. -/
def pyListGet (xs : List Int) (i : Int) : Option Int :=
  if 0 ≤ i then xs[i.toNat]?
  else if 0 ≤ (xs.length : Int) + i then xs[((xs.length : Int) + i).toNat]?
  else none

/-- `calculate_no_punishment` from no_mode.py lines 8-25: intensity table
`[35, 55, 75, 100]` indexed by `min(no_time - 1, len - 1)`; the pair is the
dict `{"mode": PunishmentMode.NO, "value": ...}`. -/
def calculate_no_punishment (no_time : Int) : Option (PunishmentMode × Int) :=
  let zap_values : List Int := [35, 55, 75, 100]
  let index : Int := min (no_time - 1) ((zap_values.length : Int) - 1)
  (pyListGet zap_values index).map (fun v => (PunishmentMode.NO, v))

/-- Replace every `schedules` row whose id matches `s.id` by `s`: the effect
of committing an attribute mutation of the ORM object `s` back to its row. -/
def updateScheduleRow (store : Store) (s : Schedule) : Store :=
  { store with schedules := store.schedules.map (fun r => if r.id = s.id then s else r) }

/-- `_mark_auto_ignore_once` from ignore_mode.py lines 47-68: set the
schedule CANCELED (with `updated_at = now`) and append one AUTO_IGNORE
ActionLog unless one already exists for this schedule. -/
def _mark_auto_ignore_once (store : Store) (schedule : Schedule) (now : Int) : Store :=
  let canceled : Schedule := { schedule with state := ScheduleState.CANCELED, updated_at := now }
  let st1 := updateScheduleRow store canceled
  if ∃ l ∈ st1.actionLogs, l.schedule_id = schedule.id ∧ l.result = ActionResult.AUTO_IGNORE then
    st1
  else
    { st1 with actionLogs := st1.actionLogs ++ [⟨schedule.id, ActionResult.AUTO_IGNORE⟩] }

/-- `_count_today_zap_executions` from ignore_mode.py lines 71-97: count the
user's Punishment rows created today (between `env.day_start` and
`env.day_end`) whose mode is NO, or IGNORE with trigger index ≥ 2.  The SQL
join on `Punishment.schedule_id == Schedule.id` filtered by
`Schedule.user_id == user_id` is the bounded existential (schedule ids are
primary keys, hence unique). -/
def _count_today_zap_executions (store : Store) (env : Env) (user_id : Nat) : Nat :=
  store.punishments.countP (fun p => decide (
    (∃ s ∈ store.schedules, s.id = p.schedule_id ∧ s.user_id = user_id)
    ∧ env.day_start ≤ p.created_at ∧ p.created_at ≤ env.day_end
    ∧ (p.mode = PunishmentMode.NO ∨ (p.mode = PunishmentMode.IGNORE ∧ 2 ≤ p.count))))

/-- Number of Punishment rows for the idempotence key
(`schedule_id`, `mode`, `count`). -/
def punishmentCountFor (store : Store) (sid : Nat) (mode : PunishmentMode) (cnt : Int) : Nat :=
  store.punishments.countP (fun p => decide (p.schedule_id = sid ∧ p.mode = mode ∧ p.count = cnt))

/-- Number of AUTO_IGNORE ActionLog rows for a schedule. -/
def autoIgnoreCount (store : Store) (sid : Nat) : Nat :=
  store.actionLogs.countP (fun l => decide (l.schedule_id = sid ∧ l.result = ActionResult.AUTO_IGNORE))

/-- The trigger index `ignore_time = elapsed_seconds // config_interval`
computed by `detect_ignore_mode` (ignore_mode.py line 127). -/
def ignoreTriggerIndex (env : Env) (schedule : Schedule) : Int :=
  Int.fdiv (env.now - schedule.run_at) (effectiveIgnoreInterval env.cfg)

/-- The trigger index `no_time = elapsed // timeout_remind` computed by
`detect_no_mode` (no_mode.py line 65). -/
def noTriggerIndex (env : Env) (schedule : Schedule) : Int :=
  Int.fdiv (env.now - schedule.run_at) env.cfg.TIMEOUT_REMIND

/-- Result dict of `detect_ignore_mode` (`{"detected", "ignore_time"}`)
together with its side effects: the post-call store and the Pavlok delivery
attempts made during the call (arguments of `_send_punishment`). -/
structure IgnoreOutcome where
  detected : Bool
  ignore_time : Int
  store : Store
  sends : List (String × Int)
deriving DecidableEq, Repr

/-- `detect_ignore_mode` from ignore_mode.py lines 100-179. -/
def detect_ignore_mode (store : Store) (env : Env) (schedule : Schedule) : IgnoreOutcome :=
  let elapsed_seconds := env.now - schedule.run_at
  let config_interval := effectiveIgnoreInterval env.cfg
  if elapsed_seconds < config_interval then
    { detected := false, ignore_time := 0, store := store, sends := [] }
  else
    let ignore_time := Int.fdiv elapsed_seconds config_interval
    if ∃ p ∈ store.punishments, p.schedule_id = schedule.id ∧ p.mode = PunishmentMode.IGNORE ∧ p.count = ignore_time then
      { detected := true, ignore_time := ignore_time, store := store, sends := [] }
    else
      let ignore_max_retry := effectiveIgnoreMaxRetry env.cfg
      if ignore_max_retry < ignore_time then
        { detected := true, ignore_time := ignore_time,
          store := _mark_auto_ignore_once store schedule env.now, sends := [] }
      else
        let pd := calculate_ignore_punishment ignore_time
        let stimulus_type := pd.1
        let value := pd.2
        if stimulus_type = "zap" ∧ effectiveZapLimit env.cfg ≤ ((_count_today_zap_executions store env schedule.user_id : Nat) : Int) then
          { detected := true, ignore_time := ignore_time, store := store, sends := [] }
        else
          if env.send stimulus_type value then
            let store1 := { store with punishments := store.punishments ++ [⟨schedule.id, PunishmentMode.IGNORE, ignore_time, env.now⟩] }
            let store2 :=
              if stimulus_type = "zap" ∧ 100 ≤ value then _mark_auto_ignore_once store1 schedule env.now
              else store1
            { detected := true, ignore_time := ignore_time, store := store2, sends := [(stimulus_type, value)] }
          else
            { detected := false, ignore_time := ignore_time, store := store, sends := [(stimulus_type, value)] }

/-- Result dict of `detect_no_mode` (`{"detected", "no_time"}`) together
with the post-call store. -/
structure NoOutcome where
  detected : Bool
  no_time : Int
  store : Store
deriving DecidableEq, Repr

/-- `detect_no_mode` from no_mode.py lines 28-88.  The raw `TIMEOUT_REMIND`
value is used without coercion or positivity guard; the division
`elapsed // timeout_remind` at line 65 raises `ZeroDivisionError` when the
value is 0, and the `zap_values[index]` subscription inside
`calculate_no_punishment` raises `IndexError` when the clamped index is
below `-len`; both surface as `Except.error`. -/
def detect_no_mode (store : Store) (env : Env) (schedule : Schedule) : Except String NoOutcome :=
  let timeout_remind := env.cfg.TIMEOUT_REMIND
  let elapsed := env.now - schedule.run_at
  if elapsed < timeout_remind then
    Except.ok { detected := false, no_time := 0, store := store }
  else if ∃ l ∈ store.actionLogs, l.schedule_id = schedule.id ∧ l.result = ActionResult.YES then
    Except.ok { detected := false, no_time := 0, store := store }
  else if timeout_remind = 0 then
    Except.error "ZeroDivisionError"
  else
    let no_time := Int.fdiv elapsed timeout_remind
    if ∃ p ∈ store.punishments, p.schedule_id = schedule.id ∧ p.mode = PunishmentMode.NO ∧ p.count = no_time then
      Except.ok { detected := true, no_time := no_time, store := store }
    else
      match calculate_no_punishment no_time with
      | none => Except.error "IndexError"
      | some pd =>
          Except.ok
            { detected := true, no_time := no_time,
              store := { store with punishments := store.punishments ++ [⟨schedule.id, pd.1, no_time, env.now⟩] } }

/-- `session.query(Schedule).get`-style lookup of a schedule row by id
(first row whose id matches). -/
def getSchedule (store : Store) (sid : Nat) : Option Schedule :=
  store.schedules.find? (fun r => decide (r.id = sid))

/-- The `except` branch of `PunishmentWorker.process_schedule`
(worker.py lines 202-215), reached when the `try` body raises: transition
to FAILED, increment `retry_count`, and when the new count is still below
`max_retry = 3` reschedule to PENDING at `now + RETRY_DELAY` minutes. -/
def _process_schedule_on_error (store : Store) (env : Env) (s : Schedule) : Store :=
  let rc := s.retry_count + 1
  let s' : Schedule :=
    if rc < 3 then
      { s with state := ScheduleState.PENDING, retry_count := rc,
               run_at := env.now + 60 * env.cfg.RETRY_DELAY }
    else
      { s with state := ScheduleState.FAILED, retry_count := rc }
  updateScheduleRow store s'

/-- `PunishmentWorker.process_schedule` (worker.py lines 164-215).
`script_ok` is the outcome of the awaited `execute_script` subprocess for
this schedule's event type (`false` models the script raising).  The `try`
body marks the row PROCESSING, runs the script, runs both detectors (whose
commits persist even if a later step raises), and marks REMIND schedules
DONE; any exception — a script failure or a `detect_no_mode` error — falls
into `_process_schedule_on_error` applied to the current ORM object. -/
def process_schedule (store : Store) (env : Env) (script_ok : Bool) (schedule : Schedule) : Store :=
  let s1 : Schedule := { schedule with state := ScheduleState.PROCESSING }
  let st1 := updateScheduleRow store s1
  if script_ok then
    let o1 := detect_ignore_mode st1 env s1
    match detect_no_mode o1.store env s1 with
    | Except.error _ =>
        _process_schedule_on_error o1.store env ((getSchedule o1.store s1.id).getD s1)
    | Except.ok noo =>
        let s2 := (getSchedule noo.store s1.id).getD s1
        if s1.event_type = EventType.REMIND then
          updateScheduleRow noo.store { s2 with state := ScheduleState.DONE }
        else
          noo.store
  else
    _process_schedule_on_error st1 env s1

/-- `PunishmentWorker._resolve_bootstrap_user_id` (worker.py lines 33-50):
the user of the most recently updated active commitment
(`ORDER BY updated_at DESC ... first()`; on ties the earlier row of the
table is kept, matching a stable descending sort). -/
def _resolve_bootstrap_user_id (store : Store) : Option Nat :=
  ((store.commitments.filter (fun c => c.active)).foldl
    (fun acc c =>
      match acc with
      | none => some c
      | some b => if b.updated_at < c.updated_at then some c else some b)
    none).map (fun c => c.user_id)

/-- `PunishmentWorker.ensure_initial_plan_schedule` (worker.py lines
52-116): skip when any PENDING/PROCESSING schedule exists, when no active
commitment resolves a user, or when the user already has a PLAN schedule
today; otherwise insert a fresh PENDING PLAN schedule at `now`. -/
def ensure_initial_plan_schedule (store : Store) (env : Env) : Store :=
  let in_flight := store.schedules.countP (fun s =>
    decide (s.state = ScheduleState.PENDING ∨ s.state = ScheduleState.PROCESSING))
  if 0 < in_flight then store
  else
    match _resolve_bootstrap_user_id store with
    | none => store
    | some uid =>
        let day_end := env.day_start + 86400
        if ∃ s ∈ store.schedules, s.user_id = uid ∧ s.event_type = EventType.PLAN
            ∧ env.day_start ≤ s.run_at ∧ s.run_at < day_end then
          store
        else
          { store with schedules := store.schedules ++
              [{ id := env.fresh_id, user_id := uid, event_type := EventType.PLAN,
                 run_at := env.now, state := ScheduleState.PENDING,
                 retry_count := 0, updated_at := env.now }] }

/-- `PunishmentWorker.run_once` (worker.py lines 217-231): bootstrap, fetch
the PENDING schedules due at `now` (`fetch_pending_schedules`, lines
118-133), and process each in order.  As implemented it consults no
system-paused flag: `env.cfg.SYSTEM_PAUSED` is never read. -/
def run_once (store : Store) (env : Env) (script_ok : Bool) : Store :=
  let st1 := ensure_initial_plan_schedule store env
  let pending := st1.schedules.filter (fun s =>
    decide (s.state = ScheduleState.PENDING ∧ s.run_at ≤ env.now))
  pending.foldl (fun st s => process_schedule st env script_ok s) st1

/-- One worker poll restricted to the schedule `sid`, in the scenario of a
schedule "whose processing raises an exception on every attempt": the row is
processed when `fetch_pending_schedules` would select it (PENDING and due),
and `execute_script` raises (`script_ok := false`). -/
def poll_schedule_failing (env : Env) (store : Store) (sid : Nat) : Store :=
  match getSchedule store sid with
  | none => store
  | some s =>
      if s.state = ScheduleState.PENDING ∧ s.run_at ≤ env.now then
        process_schedule store env false s
      else store

/-! ## Shared lemmas about the embedded detectors -/

theorem punishmentCountFor_pos_iff (store : Store) (sid : Nat) (m : PunishmentMode) (c : Int) :
    0 < punishmentCountFor store sid m c ↔
      ∃ p ∈ store.punishments, p.schedule_id = sid ∧ p.mode = m ∧ p.count = c := by
  simp [punishmentCountFor, List.countP_pos_iff]

theorem punishmentCountFor_eq_zero (store : Store) (sid : Nat) (m : PunishmentMode) (c : Int)
    (h : punishmentCountFor store sid m c = 0) :
    ¬ ∃ p ∈ store.punishments, p.schedule_id = sid ∧ p.mode = m ∧ p.count = c := by
  intro hex
  have := (punishmentCountFor_pos_iff store sid m c).mpr hex
  omega

theorem mark_punishments (st : Store) (sch : Schedule) (now : Int) :
    (_mark_auto_ignore_once st sch now).punishments = st.punishments := by
  simp only [_mark_auto_ignore_once, updateScheduleRow]
  split <;> rfl

theorem mark_schedules_canceled (st : Store) (sch : Schedule) (now : Int) :
    ∀ r ∈ (_mark_auto_ignore_once st sch now).schedules, r.id = sch.id →
      r.state = ScheduleState.CANCELED := by
  intro r hr hid
  have hsch : (_mark_auto_ignore_once st sch now).schedules
      = st.schedules.map (fun r => if r.id = sch.id
          then { sch with state := ScheduleState.CANCELED, updated_at := now } else r) := by
    simp only [_mark_auto_ignore_once, updateScheduleRow]
    split <;> rfl
  rw [hsch] at hr
  rcases List.mem_map.mp hr with ⟨r0, _, heq⟩
  by_cases h0 : r0.id = sch.id
  · rw [if_pos h0] at heq
    rw [← heq]
  · rw [if_neg h0] at heq
    rw [← heq] at hid
    exact absurd hid h0

theorem mark_actionLogs_of_pos (st : Store) (sch : Schedule) (now : Int)
    (h : 0 < autoIgnoreCount st sch.id) :
    (_mark_auto_ignore_once st sch now).actionLogs = st.actionLogs := by
  have hex : ∃ l ∈ st.actionLogs, l.schedule_id = sch.id ∧ l.result = ActionResult.AUTO_IGNORE := by
    rw [autoIgnoreCount, List.countP_pos_iff] at h
    simpa using h
  simp only [_mark_auto_ignore_once, updateScheduleRow]
  rw [if_pos hex]

theorem autoIgnoreCount_mark_of_pos (st : Store) (sch : Schedule) (now : Int)
    (h : 0 < autoIgnoreCount st sch.id) :
    autoIgnoreCount (_mark_auto_ignore_once st sch now) sch.id = autoIgnoreCount st sch.id := by
  unfold autoIgnoreCount
  rw [mark_actionLogs_of_pos st sch now h]

theorem autoIgnoreCount_mark_of_zero (st : Store) (sch : Schedule) (now : Int)
    (h : autoIgnoreCount st sch.id = 0) :
    autoIgnoreCount (_mark_auto_ignore_once st sch now) sch.id = 1 := by
  have hnone : ¬ ∃ l ∈ st.actionLogs, l.schedule_id = sch.id ∧ l.result = ActionResult.AUTO_IGNORE := by
    intro hex
    rw [autoIgnoreCount, List.countP_eq_zero] at h
    rcases hex with ⟨l, hl, h1, h2⟩
    exact absurd (by simp [h1, h2]) (h l hl)
  have hlogs : (_mark_auto_ignore_once st sch now).actionLogs
      = st.actionLogs ++ [⟨sch.id, ActionResult.AUTO_IGNORE⟩] := by
    simp only [_mark_auto_ignore_once, updateScheduleRow]
    rw [if_neg hnone]
  unfold autoIgnoreCount at h ⊢
  rw [hlogs, List.countP_append, h]
  simp

/-- Branch 1 of `detect_ignore_mode`: the trigger has not fired yet. -/
theorem detect_ignore_not_fired (S : Store) (env : Env) (sch : Schedule)
    (hA : env.now - sch.run_at < effectiveIgnoreInterval env.cfg) :
    detect_ignore_mode S env sch =
      { detected := false, ignore_time := 0, store := S, sends := [] } := by
  simp only [detect_ignore_mode]
  rw [if_pos hA]

/-- Branch 2 of `detect_ignore_mode`: idempotent replay on an existing
Punishment row for the current trigger index. -/
theorem detect_ignore_existing (S : Store) (env : Env) (sch : Schedule)
    (hA : ¬ env.now - sch.run_at < effectiveIgnoreInterval env.cfg)
    (hEx : ∃ p ∈ S.punishments, p.schedule_id = sch.id ∧ p.mode = PunishmentMode.IGNORE
      ∧ p.count = ignoreTriggerIndex env sch) :
    detect_ignore_mode S env sch =
      { detected := true, ignore_time := ignoreTriggerIndex env sch, store := S, sends := [] } := by
  simp only [detect_ignore_mode]
  simp only [ignoreTriggerIndex] at hEx ⊢
  rw [if_neg hA, if_pos hEx]

/-- Branch 3 of `detect_ignore_mode`: trigger index above max retry. -/
theorem detect_ignore_max_retry (S : Store) (env : Env) (sch : Schedule)
    (hA : ¬ env.now - sch.run_at < effectiveIgnoreInterval env.cfg)
    (hEx : ¬ ∃ p ∈ S.punishments, p.schedule_id = sch.id ∧ p.mode = PunishmentMode.IGNORE
      ∧ p.count = ignoreTriggerIndex env sch)
    (hMR : effectiveIgnoreMaxRetry env.cfg < ignoreTriggerIndex env sch) :
    detect_ignore_mode S env sch =
      { detected := true, ignore_time := ignoreTriggerIndex env sch,
        store := _mark_auto_ignore_once S sch env.now, sends := [] } := by
  simp only [detect_ignore_mode]
  simp only [ignoreTriggerIndex] at hEx hMR ⊢
  rw [if_neg hA, if_neg hEx, if_pos hMR]

/-- Branch 4 of `detect_ignore_mode`: zap stimulus blocked by the daily
cap. -/
theorem detect_ignore_cap (S : Store) (env : Env) (sch : Schedule)
    (hA : ¬ env.now - sch.run_at < effectiveIgnoreInterval env.cfg)
    (hEx : ¬ ∃ p ∈ S.punishments, p.schedule_id = sch.id ∧ p.mode = PunishmentMode.IGNORE
      ∧ p.count = ignoreTriggerIndex env sch)
    (hMR : ¬ effectiveIgnoreMaxRetry env.cfg < ignoreTriggerIndex env sch)
    (hCap : (calculate_ignore_punishment (ignoreTriggerIndex env sch)).1 = "zap"
      ∧ effectiveZapLimit env.cfg ≤ ((_count_today_zap_executions S env sch.user_id : Nat) : Int)) :
    detect_ignore_mode S env sch =
      { detected := true, ignore_time := ignoreTriggerIndex env sch, store := S, sends := [] } := by
  simp only [detect_ignore_mode]
  simp only [ignoreTriggerIndex] at hEx hMR hCap ⊢
  rw [if_neg hA, if_neg hEx, if_neg hMR, if_pos hCap]

/-- Branches 5/6 of `detect_ignore_mode`, failed delivery: the sender is
invoked and returns failure; nothing is persisted. -/
theorem detect_ignore_send_fail (S : Store) (env : Env) (sch : Schedule)
    (hA : ¬ env.now - sch.run_at < effectiveIgnoreInterval env.cfg)
    (hEx : ¬ ∃ p ∈ S.punishments, p.schedule_id = sch.id ∧ p.mode = PunishmentMode.IGNORE
      ∧ p.count = ignoreTriggerIndex env sch)
    (hMR : ¬ effectiveIgnoreMaxRetry env.cfg < ignoreTriggerIndex env sch)
    (hCap : ¬ ((calculate_ignore_punishment (ignoreTriggerIndex env sch)).1 = "zap"
      ∧ effectiveZapLimit env.cfg ≤ ((_count_today_zap_executions S env sch.user_id : Nat) : Int)))
    (hSend : env.send (calculate_ignore_punishment (ignoreTriggerIndex env sch)).1
      (calculate_ignore_punishment (ignoreTriggerIndex env sch)).2 = false) :
    detect_ignore_mode S env sch =
      { detected := false, ignore_time := ignoreTriggerIndex env sch, store := S,
        sends := [((calculate_ignore_punishment (ignoreTriggerIndex env sch)).1,
          (calculate_ignore_punishment (ignoreTriggerIndex env sch)).2)] } := by
  simp only [detect_ignore_mode]
  simp only [ignoreTriggerIndex] at hEx hMR hCap hSend ⊢
  rw [if_neg hA, if_neg hEx, if_neg hMR, if_neg hCap, hSend]
  simp

/-- Branches 5/6 of `detect_ignore_mode`, successful delivery: the
Punishment row is persisted, and a delivered zap at intensity ≥ 100
additionally auto-cancels the schedule. -/
theorem detect_ignore_send_ok (S : Store) (env : Env) (sch : Schedule)
    (hA : ¬ env.now - sch.run_at < effectiveIgnoreInterval env.cfg)
    (hEx : ¬ ∃ p ∈ S.punishments, p.schedule_id = sch.id ∧ p.mode = PunishmentMode.IGNORE
      ∧ p.count = ignoreTriggerIndex env sch)
    (hMR : ¬ effectiveIgnoreMaxRetry env.cfg < ignoreTriggerIndex env sch)
    (hCap : ¬ ((calculate_ignore_punishment (ignoreTriggerIndex env sch)).1 = "zap"
      ∧ effectiveZapLimit env.cfg ≤ ((_count_today_zap_executions S env sch.user_id : Nat) : Int)))
    (hSend : env.send (calculate_ignore_punishment (ignoreTriggerIndex env sch)).1
      (calculate_ignore_punishment (ignoreTriggerIndex env sch)).2 = true) :
    detect_ignore_mode S env sch =
      { detected := true, ignore_time := ignoreTriggerIndex env sch,
        store :=
          (if (calculate_ignore_punishment (ignoreTriggerIndex env sch)).1 = "zap"
              ∧ 100 ≤ (calculate_ignore_punishment (ignoreTriggerIndex env sch)).2 then
            _mark_auto_ignore_once
              { S with punishments := S.punishments ++
                  [⟨sch.id, PunishmentMode.IGNORE, ignoreTriggerIndex env sch, env.now⟩] }
              sch env.now
          else
            { S with punishments := S.punishments ++
                [⟨sch.id, PunishmentMode.IGNORE, ignoreTriggerIndex env sch, env.now⟩] }),
        sends := [((calculate_ignore_punishment (ignoreTriggerIndex env sch)).1,
          (calculate_ignore_punishment (ignoreTriggerIndex env sch)).2)] } := by
  simp only [detect_ignore_mode]
  simp only [ignoreTriggerIndex] at hEx hMR hCap hSend ⊢
  rw [if_neg hA, if_neg hEx, if_neg hMR, if_neg hCap, hSend]
  simp

/-! ## Claim C7 — ignore-mode intensity monotonicity -/

/-- C7: counterexample to the claim as stated.  At trigger index 1 the
policy returns the vibe stimulus at intensity 100, at trigger index 2 the
zap stimulus at intensity 35, so with i = 1 ≤ j = 2 ≤ 10 the intensity
strictly decreases. -/
theorem c7_counterexample :
    (1 : Int) ≤ 1 ∧ (1 : Int) ≤ 2 ∧ (2 : Int) ≤ 10
    ∧ (calculate_ignore_punishment 2).2 < (calculate_ignore_punishment 1).2 := by
  decide

/-- C7 (amended): for trigger indices 2 ≤ i ≤ j ≤ 10 (the zap range) the
intensity returned by `calculate_ignore_punishment` is non-decreasing, and
for every trigger index 1..10 the intensity is at most 100. -/
theorem c7_intensity_monotone_from_two :
    (∀ i j : Int, 2 ≤ i → i ≤ j → j ≤ 10 →
      (calculate_ignore_punishment i).2 ≤ (calculate_ignore_punishment j).2)
    ∧ (∀ i : Int, 1 ≤ i → i ≤ 10 → (calculate_ignore_punishment i).2 ≤ 100) := by
  constructor
  · intro i j hi hij _
    unfold calculate_ignore_punishment
    rw [if_neg (by omega : ¬ i ≤ 1), if_neg (by omega : ¬ j ≤ 1)]
    show min (35 + 10 * (i - 2)) 100 ≤ min (35 + 10 * (j - 2)) 100
    exact min_le_min (by omega) le_rfl
  · intro i _ _
    unfold calculate_ignore_punishment
    split
    · show (100 : Int) ≤ 100
      exact le_rfl
    · exact min_le_right _ _

/-- C7: witness instantiating the amended theorem at i = 3, j = 5 and at
i = 1 for the bound. -/
theorem c7_witness :
    ((2 : Int) ≤ 3 ∧ (3 : Int) ≤ 5 ∧ (5 : Int) ≤ 10
      ∧ (calculate_ignore_punishment 3).2 ≤ (calculate_ignore_punishment 5).2)
    ∧ ((1 : Int) ≤ 1 ∧ (1 : Int) ≤ 10 ∧ (calculate_ignore_punishment 1).2 ≤ 100) :=
  ⟨⟨by decide, by decide, by decide,
      c7_intensity_monotone_from_two.1 3 5 (by decide) (by decide) (by decide)⟩,
    ⟨by decide, by decide,
      c7_intensity_monotone_from_two.2 1 (by decide) (by decide)⟩⟩

/-! ## Claim C9 — no-mode intensity table -/

/-- C9: for every trigger index n ≥ 1, `calculate_no_punishment` returns
mode NO with intensity `table[min(n − 1, len(table) − 1)]` for the fixed
table [35, 55, 75, 100]; in particular 35, 55, 75 for n = 1, 2, 3 and 100
for every n ≥ 4. -/
theorem c9_no_punishment_follows_table :
    (∀ n : Int, 1 ≤ n →
      calculate_no_punishment n =
        some (PunishmentMode.NO, ([35, 55, 75, 100] : List Int).getD (min (n - 1) 3).toNat 0))
    ∧ (∀ n : Int, 4 ≤ n → calculate_no_punishment n = some (PunishmentMode.NO, 100))
    ∧ calculate_no_punishment 1 = some (PunishmentMode.NO, 35)
    ∧ calculate_no_punishment 2 = some (PunishmentMode.NO, 55)
    ∧ calculate_no_punishment 3 = some (PunishmentMode.NO, 75) := by
  have key : ∀ n : Int, 4 ≤ n → calculate_no_punishment n = some (PunishmentMode.NO, 100) := by
    intro n hn
    simp only [calculate_no_punishment, pyListGet, List.length_cons, List.length_nil]
    rw [show min (n - 1) ((((0 : Nat) + 1 + 1 + 1 + 1 : Nat) : Int) - 1) = 3 by
      rw [min_eq_right] <;> omega]
    decide
  refine ⟨?_, key, by decide, by decide, by decide⟩
  intro n hn
  rcases le_or_lt 4 n with h4 | h4
  · rw [key n h4, min_eq_right (by omega : (3 : Int) ≤ n - 1)]
    decide
  · interval_cases n <;> decide

/-- C9: witness instantiating the theorem at n = 7 and n = 2. -/
theorem c9_witness :
    ((1 : Int) ≤ 7
      ∧ calculate_no_punishment 7 =
          some (PunishmentMode.NO, ([35, 55, 75, 100] : List Int).getD (min ((7 : Int) - 1) 3).toNat 0))
    ∧ ((4 : Int) ≤ 7 ∧ calculate_no_punishment 7 = some (PunishmentMode.NO, 100))
    ∧ ((1 : Int) ≤ 2
      ∧ calculate_no_punishment 2 =
          some (PunishmentMode.NO, ([35, 55, 75, 100] : List Int).getD (min ((2 : Int) - 1) 3).toNat 0)) :=
  ⟨⟨by decide, c9_no_punishment_follows_table.1 7 (by decide)⟩,
    ⟨by decide, c9_no_punishment_follows_table.2.1 7 (by decide)⟩,
    ⟨by decide, c9_no_punishment_follows_table.1 2 (by decide)⟩⟩

theorem calculate_no_punishment_mode (n : Int) (pd : PunishmentMode × Int)
    (h : calculate_no_punishment n = some pd) : pd.1 = PunishmentMode.NO := by
  simp only [calculate_no_punishment] at h
  rcases Option.map_eq_some'.mp h with ⟨v, _, hv⟩
  rw [← hv]

/-! ## Claim C1 — idempotent replay of both detectors -/

/-- C1: once a first call of `detect_ignore_mode` (respectively
`detect_no_mode`) has persisted the Punishment row for
(schedule id, mode, trigger index) — the row count for that key going from
0 to exactly 1 — a repeated call at the same current time (hence the same
trigger index) returns detected = true, leaves the store unchanged (so
exactly one row still exists for the key), and attempts no further stimulus
delivery. -/
theorem c1_idempotent_replay :
    (∀ (S : Store) (env : Env) (sch : Schedule),
      punishmentCountFor S sch.id PunishmentMode.IGNORE (ignoreTriggerIndex env sch) = 0 →
      punishmentCountFor (detect_ignore_mode S env sch).store sch.id PunishmentMode.IGNORE
        (ignoreTriggerIndex env sch) = 1 →
      detect_ignore_mode (detect_ignore_mode S env sch).store env sch =
        { detected := true, ignore_time := ignoreTriggerIndex env sch,
          store := (detect_ignore_mode S env sch).store, sends := [] })
    ∧ (∀ (S : Store) (env : Env) (sch : Schedule) (o1 : NoOutcome),
      detect_no_mode S env sch = Except.ok o1 →
      punishmentCountFor S sch.id PunishmentMode.NO (noTriggerIndex env sch) = 0 →
      punishmentCountFor o1.store sch.id PunishmentMode.NO (noTriggerIndex env sch) = 1 →
      detect_no_mode o1.store env sch =
        Except.ok { detected := true, no_time := noTriggerIndex env sch, store := o1.store }) := by
  constructor
  · intro S env sch h0 h1
    by_cases hA : env.now - sch.run_at < effectiveIgnoreInterval env.cfg
    · rw [detect_ignore_not_fired S env sch hA] at h1
      dsimp only at h1
      omega
    · have hEx : ∃ p ∈ (detect_ignore_mode S env sch).store.punishments,
          p.schedule_id = sch.id ∧ p.mode = PunishmentMode.IGNORE
          ∧ p.count = ignoreTriggerIndex env sch :=
        (punishmentCountFor_pos_iff _ _ _ _).mp (by omega)
      exact detect_ignore_existing _ env sch hA hEx
  · intro S env sch o1 h1 h0 hcnt
    simp only [detect_no_mode] at h1
    split_ifs at h1 with hA hY hT0 hEx
    · injection h1 with h1
      subst h1
      dsimp only at hcnt
      omega
    · injection h1 with h1
      subst h1
      dsimp only at hcnt
      omega
    · injection h1 with h1
      subst h1
      dsimp only at hcnt
      omega
    · split at h1
      · exact Except.noConfusion h1
      · rename_i pd hpd
        injection h1 with h1
        subst h1
        have hmode := calculate_no_punishment_mode _ pd hpd
        dsimp only
        simp only [detect_no_mode]
        rw [if_neg hA, if_neg hY, if_neg hT0]
        rw [if_pos (show ∃ p ∈ S.punishments ++
            [⟨sch.id, pd.1, Int.fdiv (env.now - sch.run_at) env.cfg.TIMEOUT_REMIND, env.now⟩],
            p.schedule_id = sch.id ∧ p.mode = PunishmentMode.NO
            ∧ p.count = Int.fdiv (env.now - sch.run_at) env.cfg.TIMEOUT_REMIND from
          ⟨_, List.mem_append_right _ (List.mem_singleton_self _), rfl, hmode, rfl⟩)]
        rfl

/-- C1: witness schedule. -/
def c1_sch : Schedule := ⟨5, 9, EventType.REMIND, 0, ScheduleState.PROCESSING, 0, 0⟩

/-- C1: witness store with no punishments. -/
def c1_store : Store := ⟨[c1_sch], [], [], []⟩

/-- C1: witness environment (sender succeeds; trigger index 1 on both
tracks). -/
def c1_env : Env := ⟨900, 0, 86399, 99, ⟨some 900, some 5, some 100, 600, 5, false⟩, fun _ _ => true⟩

/-- C1: the outcome of the first `detect_no_mode` call at the witness
input. -/
def c1_no_o1 : NoOutcome := ⟨true, 1, ⟨[c1_sch], [⟨5, PunishmentMode.NO, 1, 900⟩], [], []⟩⟩

/-- C1: witness applying both halves of the theorem at a concrete input. -/
theorem c1_witness :
    (punishmentCountFor c1_store c1_sch.id PunishmentMode.IGNORE (ignoreTriggerIndex c1_env c1_sch) = 0
      ∧ punishmentCountFor (detect_ignore_mode c1_store c1_env c1_sch).store c1_sch.id
          PunishmentMode.IGNORE (ignoreTriggerIndex c1_env c1_sch) = 1
      ∧ detect_ignore_mode (detect_ignore_mode c1_store c1_env c1_sch).store c1_env c1_sch =
          { detected := true, ignore_time := ignoreTriggerIndex c1_env c1_sch,
            store := (detect_ignore_mode c1_store c1_env c1_sch).store, sends := [] })
    ∧ (detect_no_mode c1_store c1_env c1_sch = Except.ok c1_no_o1
      ∧ punishmentCountFor c1_store c1_sch.id PunishmentMode.NO (noTriggerIndex c1_env c1_sch) = 0
      ∧ punishmentCountFor c1_no_o1.store c1_sch.id PunishmentMode.NO (noTriggerIndex c1_env c1_sch) = 1
      ∧ detect_no_mode c1_no_o1.store c1_env c1_sch =
          Except.ok { detected := true, no_time := noTriggerIndex c1_env c1_sch,
                      store := c1_no_o1.store }) :=
  ⟨⟨by decide, by decide,
      c1_idempotent_replay.1 c1_store c1_env c1_sch (by decide) (by decide)⟩,
    ⟨rfl, by decide, by decide,
      c1_idempotent_replay.2 c1_store c1_env c1_sch c1_no_o1 rfl (by decide) (by decide)⟩⟩

/-! ## Claim C2 — failed delivery preserves retry semantics -/

/-- C2: when the ignore trigger has fired, no Punishment row exists for the
computed trigger index, the index is within the max-retry bound, and the
stimulus sender is invoked but fails (exception or non-success result,
i.e. `_send_punishment` returns false), `detect_ignore_mode` returns
detected = false with that trigger index and leaves the store unchanged, so
the same trigger index is retried on the next poll. -/
theorem c2_sender_failure_preserves_retry (S : Store) (env : Env) (sch : Schedule)
    (hfired : effectiveIgnoreInterval env.cfg ≤ env.now - sch.run_at)
    (hnorow : punishmentCountFor S sch.id PunishmentMode.IGNORE (ignoreTriggerIndex env sch) = 0)
    (hmax : ignoreTriggerIndex env sch ≤ effectiveIgnoreMaxRetry env.cfg)
    (hfail : env.send (calculate_ignore_punishment (ignoreTriggerIndex env sch)).1
      (calculate_ignore_punishment (ignoreTriggerIndex env sch)).2 = false)
    (hinvoked : (detect_ignore_mode S env sch).sends ≠ []) :
    detect_ignore_mode S env sch =
      { detected := false, ignore_time := ignoreTriggerIndex env sch, store := S,
        sends := [((calculate_ignore_punishment (ignoreTriggerIndex env sch)).1,
          (calculate_ignore_punishment (ignoreTriggerIndex env sch)).2)] } := by
  have hA : ¬ env.now - sch.run_at < effectiveIgnoreInterval env.cfg := not_lt.mpr hfired
  have hEx := punishmentCountFor_eq_zero S sch.id PunishmentMode.IGNORE (ignoreTriggerIndex env sch) hnorow
  have hMR : ¬ effectiveIgnoreMaxRetry env.cfg < ignoreTriggerIndex env sch := not_lt.mpr hmax
  by_cases hCap : (calculate_ignore_punishment (ignoreTriggerIndex env sch)).1 = "zap"
      ∧ effectiveZapLimit env.cfg ≤ ((_count_today_zap_executions S env sch.user_id : Nat) : Int)
  · exfalso
    apply hinvoked
    rw [detect_ignore_cap S env sch hA hEx hMR hCap]
  · exact detect_ignore_send_fail S env sch hA hEx hMR hCap hfail

/-- C2: witness schedule (trigger index 1, vibe stimulus). -/
def c2_sch : Schedule := ⟨3, 8, EventType.REMIND, 0, ScheduleState.PROCESSING, 0, 0⟩

/-- C2: witness store with no Punishment rows. -/
def c2_store : Store := ⟨[c2_sch], [], [], []⟩

/-- C2: witness environment whose sender always fails. -/
def c2_env : Env := ⟨900, 0, 86399, 99, ⟨some 900, some 5, some 100, 600, 5, false⟩, fun _ _ => false⟩

/-- C2: witness applying the theorem at a concrete input. -/
theorem c2_witness :
    (effectiveIgnoreInterval c2_env.cfg ≤ c2_env.now - c2_sch.run_at
      ∧ punishmentCountFor c2_store c2_sch.id PunishmentMode.IGNORE (ignoreTriggerIndex c2_env c2_sch) = 0
      ∧ ignoreTriggerIndex c2_env c2_sch ≤ effectiveIgnoreMaxRetry c2_env.cfg
      ∧ c2_env.send (calculate_ignore_punishment (ignoreTriggerIndex c2_env c2_sch)).1
          (calculate_ignore_punishment (ignoreTriggerIndex c2_env c2_sch)).2 = false
      ∧ (detect_ignore_mode c2_store c2_env c2_sch).sends ≠ [])
    ∧ detect_ignore_mode c2_store c2_env c2_sch =
        { detected := false, ignore_time := ignoreTriggerIndex c2_env c2_sch, store := c2_store,
          sends := [((calculate_ignore_punishment (ignoreTriggerIndex c2_env c2_sch)).1,
            (calculate_ignore_punishment (ignoreTriggerIndex c2_env c2_sch)).2)] } :=
  ⟨⟨by decide, by decide, by decide, by decide, by decide⟩,
    c2_sender_failure_preserves_retry c2_store c2_env c2_sch
      (by decide) (by decide) (by decide) (by decide) (by decide)⟩

/-! ## Claim C3 — daily cap blocks zap delivery -/

/-- C3: when the fired ignore trigger maps to the zap stimulus and the
owner's count of today's qualifying punishments has reached the configured
daily limit, `detect_ignore_mode` reports detected = true without invoking
the stimulus sender and without persisting any Punishment row. -/
theorem c3_daily_cap_blocks_delivery (S : Store) (env : Env) (sch : Schedule)
    (hfired : effectiveIgnoreInterval env.cfg ≤ env.now - sch.run_at)
    (hzap : (calculate_ignore_punishment (ignoreTriggerIndex env sch)).1 = "zap")
    (hcap : effectiveZapLimit env.cfg ≤ ((_count_today_zap_executions S env sch.user_id : Nat) : Int)) :
    (detect_ignore_mode S env sch).detected = true
    ∧ (detect_ignore_mode S env sch).sends = []
    ∧ (detect_ignore_mode S env sch).store.punishments = S.punishments := by
  have hA : ¬ env.now - sch.run_at < effectiveIgnoreInterval env.cfg := not_lt.mpr hfired
  by_cases hEx : ∃ p ∈ S.punishments, p.schedule_id = sch.id ∧ p.mode = PunishmentMode.IGNORE
      ∧ p.count = ignoreTriggerIndex env sch
  · rw [detect_ignore_existing S env sch hA hEx]
    exact ⟨rfl, rfl, rfl⟩
  · by_cases hMR : effectiveIgnoreMaxRetry env.cfg < ignoreTriggerIndex env sch
    · rw [detect_ignore_max_retry S env sch hA hEx hMR]
      exact ⟨rfl, rfl, mark_punishments S sch env.now⟩
    · rw [detect_ignore_cap S env sch hA hEx hMR ⟨hzap, hcap⟩]
      exact ⟨rfl, rfl, rfl⟩

/-- C3: witness schedule of owner 8 at trigger index 2 (zap). -/
def c3_sch : Schedule := ⟨3, 8, EventType.REMIND, 0, ScheduleState.PROCESSING, 0, 0⟩

/-- C3: witness store where owner 8 already has one qualifying NO-mode
punishment recorded today (on another schedule of the same owner). -/
def c3_store : Store :=
  ⟨[c3_sch, ⟨4, 8, EventType.REMIND, -5000, ScheduleState.DONE, 0, 0⟩],
    [⟨4, PunishmentMode.NO, 1, 100⟩], [], []⟩

/-- C3: witness environment with a daily cap of 1. -/
def c3_env : Env := ⟨1800, 0, 86399, 99, ⟨some 900, some 5, some 1, 600, 5, false⟩, fun _ _ => true⟩

/-- C3: witness applying the theorem at a concrete input. -/
theorem c3_witness :
    (effectiveIgnoreInterval c3_env.cfg ≤ c3_env.now - c3_sch.run_at
      ∧ (calculate_ignore_punishment (ignoreTriggerIndex c3_env c3_sch)).1 = "zap"
      ∧ effectiveZapLimit c3_env.cfg ≤ ((_count_today_zap_executions c3_store c3_env c3_sch.user_id : Nat) : Int))
    ∧ (detect_ignore_mode c3_store c3_env c3_sch).detected = true
    ∧ (detect_ignore_mode c3_store c3_env c3_sch).sends = []
    ∧ (detect_ignore_mode c3_store c3_env c3_sch).store.punishments = c3_store.punishments :=
  ⟨⟨by decide, by decide, by decide⟩,
    c3_daily_cap_blocks_delivery c3_store c3_env c3_sch (by decide) (by decide) (by decide)⟩

/-! ## Claim C4 — terminal conditions auto-cancel exactly once -/

/-- Any `detect_ignore_mode` call preserves the number of AUTO_IGNORE
ActionLogs of a schedule once at least one exists (the duplicate guard of
`_mark_auto_ignore_once`). -/
theorem autoIgnoreCount_detect_preserved (st : Store) (e : Env) (sch : Schedule)
    (h : 0 < autoIgnoreCount st sch.id) :
    autoIgnoreCount (detect_ignore_mode st e sch).store sch.id = autoIgnoreCount st sch.id := by
  by_cases hA : e.now - sch.run_at < effectiveIgnoreInterval e.cfg
  · rw [detect_ignore_not_fired st e sch hA]
  · by_cases hEx : ∃ p ∈ st.punishments, p.schedule_id = sch.id ∧ p.mode = PunishmentMode.IGNORE
        ∧ p.count = ignoreTriggerIndex e sch
    · rw [detect_ignore_existing st e sch hA hEx]
    · by_cases hMR : effectiveIgnoreMaxRetry e.cfg < ignoreTriggerIndex e sch
      · rw [detect_ignore_max_retry st e sch hA hEx hMR]
        exact autoIgnoreCount_mark_of_pos st sch e.now h
      · by_cases hCap : (calculate_ignore_punishment (ignoreTriggerIndex e sch)).1 = "zap"
            ∧ effectiveZapLimit e.cfg ≤ ((_count_today_zap_executions st e sch.user_id : Nat) : Int)
        · rw [detect_ignore_cap st e sch hA hEx hMR hCap]
        · cases hS : e.send (calculate_ignore_punishment (ignoreTriggerIndex e sch)).1
              (calculate_ignore_punishment (ignoreTriggerIndex e sch)).2 with
          | false => rw [detect_ignore_send_fail st e sch hA hEx hMR hCap hS]
          | true =>
              rw [detect_ignore_send_ok st e sch hA hEx hMR hCap hS]
              dsimp only
              split
              · exact autoIgnoreCount_mark_of_pos _ sch e.now h
              · rfl

/-- Iterating `detect_ignore_mode` over any sequence of poll environments
keeps the AUTO_IGNORE ActionLog count of the schedule at exactly 1. -/
theorem autoIgnoreCount_foldl_preserved (sch : Schedule) :
    ∀ (envs : List Env) (st : Store), autoIgnoreCount st sch.id = 1 →
      autoIgnoreCount (envs.foldl (fun s e => (detect_ignore_mode s e sch).store) st) sch.id = 1 := by
  intro envs
  induction envs with
  | nil => intro st h; exact h
  | cons e es ih =>
      intro st h
      simp only [List.foldl_cons]
      refine ih _ ?_
      rw [autoIgnoreCount_detect_preserved st e sch (by omega)]
      exact h

/-- C4: when a schedule with no prior AUTO_IGNORE log reaches an
ignore-mode terminal condition — the fired trigger index exceeds max-retry
with no row persisted for it (so the call reaches the max-retry branch), or
the call delivers a zap at intensity 100 successfully — `detect_ignore_mode`
sets every row of that schedule to CANCELED and appends one AUTO_IGNORE
ActionLog, and over any number of further polls the schedule keeps exactly
one AUTO_IGNORE ActionLog. -/
theorem c4_terminal_auto_cancel (S : Store) (env : Env) (sch : Schedule)
    (hauto : autoIgnoreCount S sch.id = 0)
    (hterm :
      (effectiveIgnoreInterval env.cfg ≤ env.now - sch.run_at
        ∧ effectiveIgnoreMaxRetry env.cfg < ignoreTriggerIndex env sch
        ∧ punishmentCountFor S sch.id PunishmentMode.IGNORE (ignoreTriggerIndex env sch) = 0)
      ∨ ((detect_ignore_mode S env sch).sends = [("zap", 100)]
        ∧ env.send "zap" 100 = true)) :
    (∀ r ∈ (detect_ignore_mode S env sch).store.schedules, r.id = sch.id →
      r.state = ScheduleState.CANCELED)
    ∧ autoIgnoreCount (detect_ignore_mode S env sch).store sch.id = 1
    ∧ ∀ envs : List Env,
        autoIgnoreCount
          (envs.foldl (fun st e => (detect_ignore_mode st e sch).store)
            (detect_ignore_mode S env sch).store) sch.id = 1 := by
  rcases hterm with ⟨hfired, hMR, hnorow⟩ | ⟨hsends, hsendok⟩
  · have hA : ¬ env.now - sch.run_at < effectiveIgnoreInterval env.cfg := not_lt.mpr hfired
    have hEx := punishmentCountFor_eq_zero S sch.id PunishmentMode.IGNORE
      (ignoreTriggerIndex env sch) hnorow
    rw [detect_ignore_max_retry S env sch hA hEx hMR]
    dsimp only
    refine ⟨mark_schedules_canceled S sch env.now,
      autoIgnoreCount_mark_of_zero S sch env.now hauto, ?_⟩
    intro envs
    exact autoIgnoreCount_foldl_preserved sch envs _
      (autoIgnoreCount_mark_of_zero S sch env.now hauto)
  · by_cases hA : env.now - sch.run_at < effectiveIgnoreInterval env.cfg
    · rw [detect_ignore_not_fired S env sch hA] at hsends
      simp at hsends
    · by_cases hEx : ∃ p ∈ S.punishments, p.schedule_id = sch.id ∧ p.mode = PunishmentMode.IGNORE
          ∧ p.count = ignoreTriggerIndex env sch
      · rw [detect_ignore_existing S env sch hA hEx] at hsends
        simp at hsends
      · by_cases hMR : effectiveIgnoreMaxRetry env.cfg < ignoreTriggerIndex env sch
        · rw [detect_ignore_max_retry S env sch hA hEx hMR] at hsends
          simp at hsends
        · by_cases hCap : (calculate_ignore_punishment (ignoreTriggerIndex env sch)).1 = "zap"
              ∧ effectiveZapLimit env.cfg ≤ ((_count_today_zap_executions S env sch.user_id : Nat) : Int)
          · rw [detect_ignore_cap S env sch hA hEx hMR hCap] at hsends
            simp at hsends
          · cases hS : env.send (calculate_ignore_punishment (ignoreTriggerIndex env sch)).1
                (calculate_ignore_punishment (ignoreTriggerIndex env sch)).2 with
            | false =>
                rw [detect_ignore_send_fail S env sch hA hEx hMR hCap hS] at hsends
                simp only [List.cons.injEq, Prod.mk.injEq] at hsends
                rw [hsends.1.1, hsends.1.2] at hS
                rw [hS] at hsendok
                exact Bool.noConfusion hsendok
            | true =>
                rw [detect_ignore_send_ok S env sch hA hEx hMR hCap hS] at hsends ⊢
                simp only [List.cons.injEq, Prod.mk.injEq] at hsends
                dsimp only
                rw [if_pos ⟨hsends.1.1, by omega⟩]
                have hz : autoIgnoreCount
                    { S with punishments := S.punishments ++
                        [⟨sch.id, PunishmentMode.IGNORE, ignoreTriggerIndex env sch, env.now⟩] }
                    sch.id = 0 := hauto
                refine ⟨mark_schedules_canceled _ sch env.now,
                  autoIgnoreCount_mark_of_zero _ sch env.now hz, ?_⟩
                intro envs
                exact autoIgnoreCount_foldl_preserved sch envs _
                  (autoIgnoreCount_mark_of_zero _ sch env.now hz)

/-- C4: witness schedule. -/
def c4_sch : Schedule := ⟨6, 9, EventType.REMIND, 0, ScheduleState.PROCESSING, 0, 0⟩

/-- C4: witness store with no AUTO_IGNORE logs and no punishments. -/
def c4_store : Store := ⟨[c4_sch], [], [], []⟩

/-- C4: witness environment with IGNORE_MAX_RETRY = 2 and elapsed 2700 s,
hence trigger index 3 exceeding max retry. -/
def c4_env : Env := ⟨2700, 0, 86399, 99, ⟨some 900, some 2, some 100, 600, 5, false⟩, fun _ _ => true⟩

/-- C4: witness applying the theorem at a concrete input. -/
theorem c4_witness :
    (autoIgnoreCount c4_store c4_sch.id = 0
      ∧ effectiveIgnoreInterval c4_env.cfg ≤ c4_env.now - c4_sch.run_at
      ∧ effectiveIgnoreMaxRetry c4_env.cfg < ignoreTriggerIndex c4_env c4_sch
      ∧ punishmentCountFor c4_store c4_sch.id PunishmentMode.IGNORE (ignoreTriggerIndex c4_env c4_sch) = 0)
    ∧ autoIgnoreCount (detect_ignore_mode c4_store c4_env c4_sch).store c4_sch.id = 1 :=
  ⟨⟨by decide, by decide, by decide, by decide⟩,
    (c4_terminal_auto_cancel c4_store c4_env c4_sch (by decide)
      (Or.inl ⟨by decide, by decide, by decide⟩)).2.1⟩

/-! ## Claim C8 — a YES ActionLog permanently clears no-mode -/

/-- C8: whenever an ActionLog with result YES exists for the schedule,
`detect_no_mode` returns not-detected — whatever the elapsed time, the
timeout configuration, or the punishment table — and leaves the store
unchanged (no Punishment row persisted). -/
theorem c8_yes_clears_no_mode (S : Store) (env : Env) (sch : Schedule)
    (hyes : ∃ l ∈ S.actionLogs, l.schedule_id = sch.id ∧ l.result = ActionResult.YES) :
    detect_no_mode S env sch = Except.ok { detected := false, no_time := 0, store := S } := by
  simp only [detect_no_mode]
  by_cases hA : env.now - sch.run_at < env.cfg.TIMEOUT_REMIND
  · rw [if_pos hA]
  · rw [if_neg hA, if_pos hyes]

/-- C8: witness — a schedule far past its fire time with a YES log. -/
def c8_sch : Schedule := ⟨1, 7, EventType.REMIND, 0, ScheduleState.PROCESSING, 0, 0⟩

/-- C8: witness store holding a YES ActionLog for the schedule. -/
def c8_store : Store := ⟨[c8_sch], [], [⟨1, ActionResult.YES⟩], []⟩

/-- C8: witness environment 100000 seconds after the fire time. -/
def c8_env : Env := ⟨100000, 86400, 172799, 99, ⟨some 900, some 5, some 100, 600, 5, false⟩, fun _ _ => false⟩

/-- C8: witness applying `c8_yes_clears_no_mode` at a concrete input. -/
theorem c8_witness :
    (∃ l ∈ c8_store.actionLogs, l.schedule_id = c8_sch.id ∧ l.result = ActionResult.YES)
    ∧ detect_no_mode c8_store c8_env c8_sch =
        Except.ok { detected := false, no_time := 0, store := c8_store } :=
  ⟨by decide, c8_yes_clears_no_mode c8_store c8_env c8_sch (by decide)⟩

/-! ## Claim C5 — bounded retry of failing schedules -/

theorem getSchedule_update (st : Store) (s' : Schedule) (sid : Nat) (hid : s'.id = sid) :
    getSchedule (updateScheduleRow st s') sid = (getSchedule st sid).map (fun _ => s') := by
  unfold getSchedule updateScheduleRow
  dsimp only
  induction st.schedules with
  | nil => rfl
  | cons r t ih =>
      simp only [List.map_cons]
      by_cases h0 : r.id = s'.id
      · rw [if_pos h0]
        rw [List.find?_cons_of_pos _ (by simp [hid]),
          List.find?_cons_of_pos _ (by simp [h0, hid])]
        rfl
      · rw [if_neg h0]
        have h0' : ¬ r.id = sid := by
          rw [← hid]; exact h0
        rw [List.find?_cons_of_neg _ (by simp [h0']),
          List.find?_cons_of_neg _ (by simp [h0'])]
        exact ih

/-- One failing poll of a due PENDING schedule: the row follows the
FAILED-increment-retry / reschedule-to-PENDING transition of
`process_schedule`'s except branch. -/
theorem poll_failing_step (e : Env) (S : Store) (sid : Nat) (s : Schedule)
    (hget : getSchedule S sid = some s)
    (hp : s.state = ScheduleState.PENDING)
    (hdue : s.run_at ≤ e.now) :
    getSchedule (poll_schedule_failing e S sid) sid =
      some (if s.retry_count + 1 < 3 then
        { s with state := ScheduleState.PENDING, retry_count := s.retry_count + 1,
                 run_at := e.now + 60 * e.cfg.RETRY_DELAY }
      else
        { s with state := ScheduleState.FAILED, retry_count := s.retry_count + 1 }) := by
  have hid : s.id = sid := by
    have := List.find?_some hget
    exact of_decide_eq_true this
  unfold poll_schedule_failing
  rw [hget]
  dsimp only
  rw [if_pos (show s.state = ScheduleState.PENDING ∧ s.run_at ≤ e.now from ⟨hp, hdue⟩)]
  unfold process_schedule
  simp only [Bool.false_eq_true, if_false]
  unfold _process_schedule_on_error
  dsimp only
  rw [getSchedule_update _ _ sid (by split <;> exact hid),
    getSchedule_update S { s with state := ScheduleState.PROCESSING } sid hid, hget]
  rfl

/-- A poll never touches a schedule that is not PENDING. -/
theorem poll_failing_skip (e : Env) (S : Store) (sid : Nat) (s : Schedule)
    (hget : getSchedule S sid = some s)
    (hnp : s.state ≠ ScheduleState.PENDING) :
    poll_schedule_failing e S sid = S := by
  unfold poll_schedule_failing
  rw [hget]
  dsimp only
  rw [if_neg (fun h => hnp h.1)]

/-- C5 (amended): a PENDING schedule whose processing raises on every
attempt is retried up to 2 times — retry_count reaching 1 then 2 with the
state cycling FAILED→PENDING and `run_at` pushed to now + RETRY_DELAY
minutes — and on the 3rd failure it remains FAILED permanently with
retry_count = 3: every later poll leaves the store unchanged, so
retry_count never reaches 4. -/
theorem c5_bounded_retry (S : Store) (e1 e2 e3 : Env) (sid : Nat) (s : Schedule)
    (hget : getSchedule S sid = some s)
    (hstate : s.state = ScheduleState.PENDING)
    (hrc : s.retry_count = 0)
    (hdue1 : s.run_at ≤ e1.now)
    (hdue2 : e1.now + 60 * e1.cfg.RETRY_DELAY ≤ e2.now)
    (hdue3 : e2.now + 60 * e2.cfg.RETRY_DELAY ≤ e3.now) :
    getSchedule (poll_schedule_failing e1 S sid) sid =
      some { s with state := ScheduleState.PENDING, retry_count := 1,
                    run_at := e1.now + 60 * e1.cfg.RETRY_DELAY }
    ∧ getSchedule (poll_schedule_failing e2 (poll_schedule_failing e1 S sid) sid) sid =
      some { s with state := ScheduleState.PENDING, retry_count := 2,
                    run_at := e2.now + 60 * e2.cfg.RETRY_DELAY }
    ∧ getSchedule (poll_schedule_failing e3
        (poll_schedule_failing e2 (poll_schedule_failing e1 S sid) sid) sid) sid =
      some { s with state := ScheduleState.FAILED, retry_count := 3,
                    run_at := e2.now + 60 * e2.cfg.RETRY_DELAY }
    ∧ ∀ envs : List Env,
        envs.foldl (fun st e => poll_schedule_failing e st sid)
          (poll_schedule_failing e3
            (poll_schedule_failing e2 (poll_schedule_failing e1 S sid) sid) sid) =
        poll_schedule_failing e3
          (poll_schedule_failing e2 (poll_schedule_failing e1 S sid) sid) sid := by
  have h1 : getSchedule (poll_schedule_failing e1 S sid) sid =
      some { s with state := ScheduleState.PENDING, retry_count := 1,
                    run_at := e1.now + 60 * e1.cfg.RETRY_DELAY } := by
    have h := poll_failing_step e1 S sid s hget hstate hdue1
    rw [hrc] at h
    simpa using h
  have h2 : getSchedule (poll_schedule_failing e2 (poll_schedule_failing e1 S sid) sid) sid =
      some { s with state := ScheduleState.PENDING, retry_count := 2,
                    run_at := e2.now + 60 * e2.cfg.RETRY_DELAY } := by
    have h := poll_failing_step e2 _ sid _ h1 rfl hdue2
    simpa using h
  have h3 : getSchedule (poll_schedule_failing e3
      (poll_schedule_failing e2 (poll_schedule_failing e1 S sid) sid) sid) sid =
      some { s with state := ScheduleState.FAILED, retry_count := 3,
                    run_at := e2.now + 60 * e2.cfg.RETRY_DELAY } := by
    have h := poll_failing_step e3 _ sid _ h2 rfl hdue3
    simpa using h
  refine ⟨h1, h2, h3, ?_⟩
  intro envs
  induction envs with
  | nil => rfl
  | cons e es ih =>
      simp only [List.foldl_cons]
      rw [poll_failing_skip e _ sid _ h3 (by intro h; exact ScheduleState.noConfusion h)]
      exact ih

/-- C5: the schedule used by counterexample and witness. -/
def c5_sch : Schedule := ⟨1, 7, EventType.REMIND, 0, ScheduleState.PENDING, 0, 0⟩

/-- C5: initial store. -/
def c5_S0 : Store := ⟨[c5_sch], [], [], []⟩

/-- C5: poll environments at now = 0, 1000, 2000, 10000 (RETRY_DELAY = 5
minutes, so each retry run_at lands 300 s after the failure). -/
def c5_e1 : Env := ⟨0, 0, 86399, 99, ⟨some 900, some 5, some 100, 600, 5, false⟩, fun _ _ => true⟩

/-- C5: second poll environment. -/
def c5_e2 : Env := ⟨1000, 0, 86399, 99, ⟨some 900, some 5, some 100, 600, 5, false⟩, fun _ _ => true⟩

/-- C5: third poll environment. -/
def c5_e3 : Env := ⟨2000, 0, 86399, 99, ⟨some 900, some 5, some 100, 600, 5, false⟩, fun _ _ => true⟩

/-- C5: fourth poll environment. -/
def c5_e4 : Env := ⟨10000, 0, 86399, 99, ⟨some 900, some 5, some 100, 600, 5, false⟩, fun _ _ => true⟩

/-- C5: counterexample to the claim as stated.  After the 3rd failure the
schedule is FAILED with retry_count = 3 — the state does not cycle back to
PENDING at retry_count 3 — and the next poll does not process it at all, so
there is no 4th failure and retry_count never reaches 4. -/
theorem c5_counterexample :
    getSchedule (poll_schedule_failing c5_e3
        (poll_schedule_failing c5_e2 (poll_schedule_failing c5_e1 c5_S0 1) 1) 1) 1 =
      some ⟨1, 7, EventType.REMIND, 1300, ScheduleState.FAILED, 3, 0⟩
    ∧ poll_schedule_failing c5_e4
        (poll_schedule_failing c5_e3
          (poll_schedule_failing c5_e2 (poll_schedule_failing c5_e1 c5_S0 1) 1) 1) 1 =
      poll_schedule_failing c5_e3
        (poll_schedule_failing c5_e2 (poll_schedule_failing c5_e1 c5_S0 1) 1) 1 := by
  exact ⟨rfl, rfl⟩

/-- C5: witness applying the amended theorem at a concrete input. -/
theorem c5_witness :
    (getSchedule c5_S0 1 = some c5_sch
      ∧ c5_sch.state = ScheduleState.PENDING
      ∧ c5_sch.retry_count = 0
      ∧ c5_sch.run_at ≤ c5_e1.now
      ∧ c5_e1.now + 60 * c5_e1.cfg.RETRY_DELAY ≤ c5_e2.now
      ∧ c5_e2.now + 60 * c5_e2.cfg.RETRY_DELAY ≤ c5_e3.now)
    ∧ getSchedule (poll_schedule_failing c5_e3
        (poll_schedule_failing c5_e2 (poll_schedule_failing c5_e1 c5_S0 1) 1) 1) 1 =
      some { c5_sch with state := ScheduleState.FAILED, retry_count := 3,
                         run_at := c5_e2.now + 60 * c5_e2.cfg.RETRY_DELAY } :=
  ⟨⟨rfl, rfl, rfl, by decide, by decide, by decide⟩,
    (c5_bounded_retry c5_S0 c5_e1 c5_e2 c5_e3 1 c5_sch rfl rfl rfl
      (by decide) (by decide) (by decide)).2.2.1⟩

/-! ## Claim C6 — the system-paused kill switch -/

/-- C6: schedule pending and due. -/
def c6_sch : Schedule := ⟨1, 7, EventType.REMIND, 0, ScheduleState.PENDING, 0, 0⟩

/-- C6: store holding the pending schedule. -/
def c6_store : Store := ⟨[c6_sch], [], [], []⟩

/-- C6: environment whose configuration has SYSTEM_PAUSED = true. -/
def c6_env : Env := ⟨100, 0, 86399, 99, ⟨some 900, some 5, some 100, 600, 5, true⟩, fun _ _ => true⟩

/-- C6: the code contradicts the claim (and the repository's own test
`test_run_once_skips_all_when_system_paused`): with the system-paused flag
set and one due PENDING schedule, `run_once` still fetches and processes the
schedule — it transitions to DONE and the store changes — because
`PunishmentWorker.run_once` never reads the flag. -/
theorem c6_paused_flag_not_consulted :
    c6_env.cfg.SYSTEM_PAUSED = true
    ∧ run_once c6_store c6_env true ≠ c6_store
    ∧ getSchedule (run_once c6_store c6_env true) 1 =
        some { c6_sch with state := ScheduleState.DONE } :=
  ⟨rfl, by decide, by decide⟩

/-! ## Claim C10 — TIMEOUT_REMIND = 0 crashes detect_no_mode -/

/-- C10: schedule used by the counterexample. -/
def c10_sch : Schedule := ⟨1, 7, EventType.REMIND, 0, ScheduleState.PROCESSING, 0, 0⟩

/-- C10: store with a YES ActionLog for the schedule. -/
def c10_store : Store := ⟨[c10_sch], [], [⟨1, ActionResult.YES⟩], []⟩

/-- C10: environment with TIMEOUT_REMIND configured to 0, 1000 seconds after
the fire time. -/
def c10_env : Env := ⟨1000, 0, 86399, 99, ⟨some 900, some 5, some 100, 0, 5, false⟩, fun _ _ => false⟩

/-- C10: counterexample to the claim as stated.  The claim quantifies over
every schedule with elapsed ≥ 0, but a schedule that has a YES ActionLog
returns not-detected from the YES guard (no_mode.py lines 56-62) before the
division at line 65 is reached, so no division-by-zero occurs. -/
theorem c10_counterexample :
    0 ≤ c10_env.now - c10_sch.run_at
    ∧ c10_env.cfg.TIMEOUT_REMIND = 0
    ∧ detect_no_mode c10_store c10_env c10_sch =
        Except.ok { detected := false, no_time := 0, store := c10_store } :=
  ⟨by decide, rfl, rfl⟩

/-- C10 (amended): for every schedule with no YES ActionLog whose fire time
is not in the future, a TIMEOUT_REMIND value of 0 makes `detect_no_mode`
fail with a division-by-zero error in computing `elapsed // timeout_remind`
rather than return a result — the value is used with no integer coercion or
positivity guard, unlike `detect_ignore_mode`'s interval handling. -/
theorem c10_zero_timeout_division_error (S : Store) (env : Env) (sch : Schedule)
    (helapsed : 0 ≤ env.now - sch.run_at)
    (htimeout : env.cfg.TIMEOUT_REMIND = 0)
    (hnoyes : ¬ ∃ l ∈ S.actionLogs, l.schedule_id = sch.id ∧ l.result = ActionResult.YES) :
    detect_no_mode S env sch = Except.error "ZeroDivisionError" := by
  simp only [detect_no_mode]
  rw [if_neg (by omega : ¬ env.now - sch.run_at < env.cfg.TIMEOUT_REMIND),
    if_neg hnoyes, if_pos htimeout]

/-- C10: schedule for the amended theorem's witness. -/
def c10w_sch : Schedule := ⟨2, 7, EventType.REMIND, 50, ScheduleState.PROCESSING, 0, 50⟩

/-- C10: witness store without any YES ActionLog. -/
def c10w_store : Store := ⟨[c10w_sch], [], [⟨2, ActionResult.NO⟩], []⟩

/-- C10: witness environment with TIMEOUT_REMIND configured to 0. -/
def c10w_env : Env := ⟨1000, 0, 86399, 99, ⟨some 900, some 5, some 100, 0, 5, false⟩, fun _ _ => false⟩

/-- C10: witness applying the amended theorem at a concrete input. -/
theorem c10_witness :
    (0 ≤ c10w_env.now - c10w_sch.run_at
      ∧ c10w_env.cfg.TIMEOUT_REMIND = 0
      ∧ ¬ ∃ l ∈ c10w_store.actionLogs, l.schedule_id = c10w_sch.id ∧ l.result = ActionResult.YES)
    ∧ detect_no_mode c10w_store c10w_env c10w_sch = Except.error "ZeroDivisionError" :=
  ⟨⟨by decide, rfl, by decide⟩,
    c10_zero_timeout_division_error c10w_store c10w_env c10w_sch (by decide) rfl (by decide)⟩

end Oni
